import Mathlib

/-!
Shallow embedding of the event-translation / session-recovery core of the
claude-agent-sdk pattern (`src/patterns/claude-agent-sdk/agent.py` and
`src/patterns/claude-agent-sdk/agents/subagents.py`).

The Python entrypoint `main` drives one agent run, translates the SDK's
native message stream into the events it yields, threads a sandbox session
id extracted from tool-result payloads, and retries the whole attempt once
on `ProcessError` when a non-empty `claude_session_id` was supplied.

External collaborators (the SDK client producing the message stream, and
`json.loads`) are parameters of the embedding: the run service is a
function from (prompt, resume token) to the stream outcome, and JSON
parsing is a function from strings to an optional structured value.
-/

/-- Structured data as produced by `json.loads`: numbers are modelled as
integers (no claim involves fractional values). -/
inductive Json where
  | null : Json
  | bool : Bool → Json
  | num : Int → Json
  | str : String → Json
  | arr : List Json → Json
  | obj : List (String × Json) → Json

/-- Python truthiness (`if extracted:`) on a structured value. -/
def Json.truthy : Json → Bool
  | .null => false
  | .bool b => b
  | .num n => n != 0
  | .str s => s != ""
  | .arr l => !l.isEmpty
  | .obj l => !l.isEmpty

/-- `dict.get(key)` on a structured object: the value at `key`, if present. -/
def lookupField : List (String × Json) → String → Option Json
  | [], _ => none
  | (k, v) :: rest, key => if k = key then some v else lookupField rest key

/-- `dict.get(key)` on a string-valued dict (the tool-result content items). -/
def lookupStr : List (String × String) → String → Option String
  | [], _ => none
  | (k, v) :: rest, key => if k = key then some v else lookupStr rest key

/-- One element of `ToolResultBlock.content`: the code only looks at items
that are dicts (`isinstance(block.content[0], dict)`), reading their
string-valued `"text"` entry. -/
inductive ToolResultItem where
  | dict (fields : List (String × String))
  | nondict

/-- A content block of an `AssistantMessage`: `ToolUseBlock` (with its
optional `id` attribute, per the `hasattr(block, "id")` check),
`TextBlock`, or any other block type (ignored by the loop). -/
inductive ContentBlock where
  | toolUse (name : String) (input : Json) (id : Option String)
  | text (t : String)
  | other

/-- A content block of a `UserMessage`: `ToolResultBlock` (whose `content`
may be absent — `if block.content and len(block.content) > 0`) or any
other block type. -/
inductive UserBlock where
  | toolResult (content : Option (List ToolResultItem))
  | other

/-- A native message from `client.receive_response()`:
`SystemMessage` (subtype plus the logged `data["session_id"]`),
`AssistantMessage`, `UserMessage`, `ResultMessage`. -/
inductive Message where
  | system (subtype : String) (data_session_id : Option String)
  | assistant (content : List ContentBlock)
  | user (content : List UserBlock)
  | result (session_id : String)

/-- An event yielded by `_process_messages` / the entrypoint generator:
`{"current_tool_use": {...}}`, `{"data": text}`, or
`{"claude_session_id": sid}`. These are the only yields in the source. -/
inductive Event where
  | currentToolUse (name : String) (input : Json) (toolUseId : String)
  | data (text : String)
  | claudeSessionId (session_id : String)

/-- The mutable state threaded through the message loop: the tracked
sandbox session id (`code_int_session_id`, assigned at line 150) and the
`agent_responses` transcript buffer. -/
structure AgentState where
  code_int_session_id : Json
  agent_responses : List String

/-- The `toolUseId` field of a `current_tool_use` event:
`f"tool-{block.id}"` when the block has an id, otherwise
`f"tool-{hash(block.name)}"`. Python `hash` is a parameter `hashName`. -/
def toolUseId (hashName : String → Int) (name : String) (id : Option String) : String :=
  match id with
  | some i => "tool-" ++ i
  | none => "tool-" ++ toString (hashName name)

/-- Processing of one `AssistantMessage` content block. -/
def stepAssistantBlock (hashName : String → Int) (st : AgentState) :
    ContentBlock → List Event × AgentState
  | .toolUse name input id =>
      ([Event.currentToolUse name input (toolUseId hashName name id)], st)
  | .text t =>
      ([Event.data t], { st with agent_responses := st.agent_responses ++ [t] })
  | .other => ([], st)

/-- The `for block in msg.content` loop of the `AssistantMessage` branch. -/
def stepAssistant (hashName : String → Int) (blocks : List ContentBlock)
    (st : AgentState) : List Event × AgentState :=
  match blocks with
  | [] => ([], st)
  | b :: rest =>
    let r := stepAssistantBlock hashName st b
    let r' := stepAssistant hashName rest r.2
    (r.1 ++ r'.1, r'.2)

/-- Processing of one `ToolResultBlock`: read `content[0]["text"]`
(default `""`), `json.loads` it (parse failure is swallowed), and when the
result is a dict whose `"code_int_session_id"` entry is truthy, assign it
to the tracked session id. No event is yielded on this path. -/
def toolResultUpdate (jsonLoads : String → Option Json)
    (content : Option (List ToolResultItem)) (st : AgentState) : AgentState :=
  match content with
  | some (ToolResultItem.dict fields :: _) =>
    let text_content := (lookupStr fields "text").getD ""
    match jsonLoads text_content with
    | some (Json.obj result_fields) =>
      let extracted := (lookupField result_fields "code_int_session_id").getD (Json.str "")
      if extracted.truthy then { st with code_int_session_id := extracted } else st
    | _ => st
  | some (ToolResultItem.nondict :: _) => st
  | _ => st

/-- The `for block in msg.content` loop of the `UserMessage` branch. -/
def stepUser (jsonLoads : String → Option Json) (blocks : List UserBlock)
    (st : AgentState) : AgentState :=
  match blocks with
  | [] => st
  | UserBlock.toolResult c :: rest => stepUser jsonLoads rest (toolResultUpdate jsonLoads c st)
  | UserBlock.other :: rest => stepUser jsonLoads rest st

/-- Translation of one native message: the body of the
`async for msg in client.receive_response()` loop. -/
def stepMessage (hashName : String → Int) (jsonLoads : String → Option Json)
    (m : Message) (st : AgentState) : List Event × AgentState :=
  match m with
  | .system _ _ => ([], st)
  | .assistant blocks => stepAssistant hashName blocks st
  | .user blocks => ([], stepUser jsonLoads blocks st)
  | .result sid => ([Event.claudeSessionId sid], st)

/-- Translation of a whole native message stream, in arrival order:
the `_process_messages` loop. -/
def processMessages (hashName : String → Int) (jsonLoads : String → Option Json)
    (msgs : List Message) (st : AgentState) : List Event × AgentState :=
  match msgs with
  | [] => ([], st)
  | m :: rest =>
    let r := stepMessage hashName jsonLoads m st
    let r' := processMessages hashName jsonLoads rest r.2
    (r.1 ++ r'.1, r'.2)

/-- A failure raised by the run service: `ProcessError` (the class the
`except` clause catches) or any other exception class. -/
inductive RunError where
  | processError
  | otherError (kind : String)

/-- Outcome of one underlying run attempt: the native messages delivered
before the stream ended, and, when the attempt failed, the error raised
after those messages (a failure at open time has `messages = []`). -/
structure RunOutcome where
  messages : List Message
  error : Option RunError

/-- The entrypoint payload fields the core reads:
`payload["prompt"]`, `payload.get("code_int_session_id", "")`,
`payload.get("claude_session_id")` (absent ↦ `none`). -/
structure Payload where
  prompt : String
  code_int_session_id : Json
  claude_session_id : Option String

/-- Python truthiness of `claude_session_id` (`if claude_session_id:`):
`None` and the empty string are falsy. -/
def optTruthy : Option String → Bool
  | none => false
  | some s => s != ""

/-- Names of the configured MCP servers: always `codeint`, plus `gateway`
when `gateway_url and access_token` held. -/
def mcp_server_names (gatewayConfigured : Bool) : List String :=
  ["codeint"] ++ (if gatewayConfigured then ["gateway"] else [])

/-- The fixed sandbox-operation tool identifiers of `allowed_tools`. -/
def base_allowed_tools : List String :=
  ["mcp__codeint__execute_code", "mcp__codeint__execute_command",
   "mcp__codeint__write_files", "mcp__codeint__read_files"]

/-- The full `allowed_tools` list built in `main`: sandbox operations,
conditionally the gateway wildcard, then the `Task` delegation tool. -/
def allowed_tools (gatewayConfigured : Bool) : List String :=
  (base_allowed_tools ++ (if gatewayConfigured then ["mcp__gateway__*"] else []))
    ++ ["Task"]

/-- The registry capabilities other than delegation: the sandbox operation
set plus (when configured) the gateway wildcard. -/
def exposed_capabilities (gatewayConfigured : Bool) : List String :=
  base_allowed_tools ++ (if gatewayConfigured then ["mcp__gateway__*"] else [])

/-- One subagent catalog entry (`claude_agent_sdk.AgentDefinition`):
description, prompt, tool list, model. -/
structure AgentDefinition where
  description : String
  prompt : String
  tools : List String
  model : String

/-- The `code-analyst` entry of the subagent catalog in
`agents/subagents.py`. -/
def code_analyst : AgentDefinition :=
  { description := "Analyzes code output, debugs errors, and explains results. Can execute code via Code Interpreter. Use when you have code execution output or errors that need detailed analysis. Pass the output/error text directly in the task prompt."
    prompt := "You are a code analysis specialist. You receive code, execution output, and error messages for analysis.\n\nWhen analyzing:\n- Identify root causes of errors\n- Provide clear, actionable explanations\n- Suggest fixes with code examples\n- Use mcp__codeint__execute_code to test fixes if needed\n- Summarize findings concisely\n\nCRITICAL SESSION MANAGEMENT:\n1. For the FIRST Code Interpreter call, pass an empty string \"\" for code_int_session_id\n2. The tool will return a session ID in its response\n3. Use that EXACT returned session ID for ALL subsequent Code Interpreter calls\n4. NEVER make up or generate your own session IDs\n5. Only use \"\" (first call) or the exact session ID returned by Code Interpreter"
    tools := ["mcp__codeint__execute_code", "mcp__codeint__execute_command",
              "mcp__gateway__*", "Read", "Grep", "Glob"]
    model := "sonnet" }

/-- The catalog from `agents/subagents.py`: a single `code-analyst` entry.
The `mcp_servers` argument is accepted but not consulted, as in the
source. -/
def get_subagent_definitions (mcp_servers : List String) :
    List (String × AgentDefinition) :=
  [("code-analyst", code_analyst)]

/-- The fields of `ClaudeAgentOptions` that the embedding tracks (the
`thinking`, `cli_path`, `stderr` and `system_prompt` settings are constant
configuration with no bearing on the translated event stream). -/
structure ClaudeAgentOptions where
  mcp_servers : List String
  model : String
  allowed_tools : List String
  agents : List (String × AgentDefinition)
  resume : Option String

/-- `_build_options(resume_id)`: same configuration every call, differing
only in `resume`. -/
def build_options (gatewayConfigured : Bool) (resume_id : Option String) :
    ClaudeAgentOptions :=
  { mcp_servers := mcp_server_names gatewayConfigured
    model := "us.anthropic.claude-opus-4-6-v1"
    allowed_tools := allowed_tools gatewayConfigured
    agents := get_subagent_definitions (mcp_server_names gatewayConfigured)
    resume := resume_id }

/-- Result of one entrypoint invocation: the events yielded to the caller,
the error that escaped (if any), and the trace of resume tokens the run
service was opened with (one entry per attempt, in order). -/
structure DriverResult where
  events : List Event
  error : Option RunError
  attempts : List (Option String)

/-- The entrypoint `main`: run `_process_messages` with
`_build_options(claude_session_id)`; on `ProcessError`, when
`claude_session_id` is truthy, rerun once with `_build_options(None)` and
let that attempt's outcome propagate; otherwise re-raise. Any
non-`ProcessError` failure propagates directly. The run service `env` maps
(prompt, resume token) to the attempt's stream outcome. -/
def main_driver (hashName : String → Int) (jsonLoads : String → Option Json)
    (env : String → Option String → RunOutcome) (gatewayConfigured : Bool)
    (p : Payload) : DriverResult :=
  let st0 : AgentState := { code_int_session_id := p.code_int_session_id, agent_responses := [] }
  let o1 := env p.prompt (build_options gatewayConfigured p.claude_session_id).resume
  let r1 := processMessages hashName jsonLoads o1.messages st0
  match o1.error with
  | none => { events := r1.1, error := none, attempts := [p.claude_session_id] }
  | some RunError.processError =>
    if optTruthy p.claude_session_id then
      let o2 := env p.prompt (build_options gatewayConfigured none).resume
      let r2 := processMessages hashName jsonLoads o2.messages r1.2
      { events := r1.1 ++ r2.1, error := o2.error,
        attempts := [p.claude_session_id, none] }
    else
      { events := r1.1, error := some RunError.processError,
        attempts := [p.claude_session_id] }
  | some (RunError.otherError k) =>
    { events := r1.1, error := some (RunError.otherError k),
      attempts := [p.claude_session_id] }

/-- Events contributed by one `AssistantMessage` content block (they do
not depend on the threaded state). -/
def blockEvents (hashName : String → Int) : ContentBlock → List Event
  | .toolUse name input id =>
      [Event.currentToolUse name input (toolUseId hashName name id)]
  | .text t => [Event.data t]
  | .other => []

/-- Events contributed by one native message. -/
def msgEvents (hashName : String → Int) : Message → List Event
  | .system _ _ => []
  | .assistant blocks => blocks.flatMap (blockEvents hashName)
  | .user _ => []
  | .result sid => [Event.claudeSessionId sid]

/-- The session-id update (if any) performed by one `ToolResultBlock`:
`some v` exactly when the first content item is a dict whose `"text"`
entry parses to a dict with a truthy `"code_int_session_id"` value `v`. -/
def itemSessionUpdate (jsonLoads : String → Option Json)
    (content : Option (List ToolResultItem)) : Option Json :=
  match content with
  | some (ToolResultItem.dict fields :: _) =>
    match jsonLoads ((lookupStr fields "text").getD "") with
    | some (Json.obj result_fields) =>
      let extracted := (lookupField result_fields "code_int_session_id").getD (Json.str "")
      if extracted.truthy then some extracted else none
    | _ => none
  | _ => none

/-- The session-id update performed by one `UserMessage` content block. -/
def userBlockUpdate (jsonLoads : String → Option Json) : UserBlock → Option Json
  | .toolResult c => itemSessionUpdate jsonLoads c
  | .other => none

/-- The sequence of session-id updates performed while translating one
native message. -/
def msgSessionUpdates (jsonLoads : String → Option Json) : Message → List Json
  | .user blocks => blocks.filterMap (userBlockUpdate jsonLoads)
  | _ => []

/-- Last element of a list, or a default: the value a sequence of
overwriting assignments leaves behind. -/
def lastD (l : List Json) (d : Json) : Json :=
  l.foldl (fun _ v => v) d

theorem lastD_append (l₁ l₂ : List Json) (d : Json) :
    lastD (l₁ ++ l₂) d = lastD l₂ (lastD l₁ d) :=
  List.foldl_append _ _ _ _

theorem lastD_cons (a : Json) (l : List Json) (d : Json) :
    lastD (a :: l) d = lastD l a := rfl

theorem lastD_truthy : ∀ (l : List Json) (d : Json),
    (∀ v ∈ l, v.truthy = true) → d.truthy = true → (lastD l d).truthy = true := by
  intro l
  induction l with
  | nil => intro d _ hd; exact hd
  | cons a t ih =>
    intro d h _
    rw [lastD_cons]
    exact ih a (fun v hv => h v (List.mem_cons_of_mem _ hv)) (h a (List.mem_cons_self _ _))

theorem stepAssistantBlock_events (hashName : String → Int) (st : AgentState)
    (b : ContentBlock) : (stepAssistantBlock hashName st b).1 = blockEvents hashName b := by
  cases b <;> rfl

theorem stepAssistantBlock_session (hashName : String → Int) (st : AgentState)
    (b : ContentBlock) :
    (stepAssistantBlock hashName st b).2.code_int_session_id = st.code_int_session_id := by
  cases b <;> rfl

theorem stepAssistant_events (hashName : String → Int) :
    ∀ (blocks : List ContentBlock) (st : AgentState),
    (stepAssistant hashName blocks st).1 = blocks.flatMap (blockEvents hashName) := by
  intro blocks
  induction blocks with
  | nil => intro st; rfl
  | cons b rest ih =>
    intro st
    simp only [stepAssistant, List.flatMap_cons, stepAssistantBlock_events, ih]

theorem stepAssistant_session (hashName : String → Int) :
    ∀ (blocks : List ContentBlock) (st : AgentState),
    (stepAssistant hashName blocks st).2.code_int_session_id = st.code_int_session_id := by
  intro blocks
  induction blocks with
  | nil => intro st; rfl
  | cons b rest ih =>
    intro st
    simp only [stepAssistant]
    rw [ih, stepAssistantBlock_session]

theorem toolResultUpdate_eq (jsonLoads : String → Option Json)
    (c : Option (List ToolResultItem)) (st : AgentState) :
    toolResultUpdate jsonLoads c st =
      match itemSessionUpdate jsonLoads c with
      | some v => { st with code_int_session_id := v }
      | none => st := by
  cases c with
  | none => rfl
  | some l =>
    cases l with
    | nil => rfl
    | cons item rest =>
      cases item with
      | nondict => rfl
      | dict fields =>
        simp only [toolResultUpdate, itemSessionUpdate]
        cases h : jsonLoads ((lookupStr fields "text").getD "") with
        | none => rfl
        | some j =>
          cases j with
          | obj result_fields =>
            dsimp only
            by_cases ht :
              ((lookupField result_fields "code_int_session_id").getD (Json.str "")).truthy = true
            · rw [if_pos ht, if_pos ht]
            · rw [if_neg ht, if_neg ht]
          | null => rfl
          | bool b => rfl
          | num n => rfl
          | str s => rfl
          | arr a => rfl

theorem stepUser_session (jsonLoads : String → Option Json) :
    ∀ (blocks : List UserBlock) (st : AgentState),
    (stepUser jsonLoads blocks st).code_int_session_id =
      lastD (blocks.filterMap (userBlockUpdate jsonLoads)) st.code_int_session_id := by
  intro blocks
  induction blocks with
  | nil => intro st; rfl
  | cons b rest ih =>
    intro st
    cases b with
    | toolResult c =>
      simp only [stepUser, List.filterMap_cons, userBlockUpdate]
      rw [ih, toolResultUpdate_eq]
      cases hu : itemSessionUpdate jsonLoads c with
      | none => rfl
      | some v => rw [lastD_cons]
    | other =>
      simp only [stepUser, List.filterMap_cons, userBlockUpdate]
      exact ih st

theorem stepMessage_events (hashName : String → Int) (jsonLoads : String → Option Json)
    (m : Message) (st : AgentState) :
    (stepMessage hashName jsonLoads m st).1 = msgEvents hashName m := by
  cases m with
  | system subtype d => rfl
  | assistant blocks => exact stepAssistant_events hashName blocks st
  | user blocks => rfl
  | result sid => rfl

theorem stepMessage_session (hashName : String → Int) (jsonLoads : String → Option Json)
    (m : Message) (st : AgentState) :
    (stepMessage hashName jsonLoads m st).2.code_int_session_id =
      lastD (msgSessionUpdates jsonLoads m) st.code_int_session_id := by
  cases m with
  | system subtype d => rfl
  | assistant blocks => exact stepAssistant_session hashName blocks st
  | user blocks => exact stepUser_session jsonLoads blocks st
  | result sid => rfl

theorem processMessages_events (hashName : String → Int) (jsonLoads : String → Option Json) :
    ∀ (msgs : List Message) (st : AgentState),
    (processMessages hashName jsonLoads msgs st).1 = msgs.flatMap (msgEvents hashName) := by
  intro msgs
  induction msgs with
  | nil => intro st; rfl
  | cons m rest ih =>
    intro st
    simp only [processMessages, List.flatMap_cons, stepMessage_events, ih]

theorem processMessages_session (hashName : String → Int) (jsonLoads : String → Option Json) :
    ∀ (msgs : List Message) (st : AgentState),
    (processMessages hashName jsonLoads msgs st).2.code_int_session_id =
      lastD (msgs.flatMap (msgSessionUpdates jsonLoads)) st.code_int_session_id := by
  intro msgs
  induction msgs with
  | nil => intro st; rfl
  | cons m rest ih =>
    intro st
    simp only [processMessages, List.flatMap_cons]
    rw [lastD_append, ih, stepMessage_session]

theorem itemSessionUpdate_truthy (jsonLoads : String → Option Json)
    (c : Option (List ToolResultItem)) (v : Json)
    (h : itemSessionUpdate jsonLoads c = some v) : v.truthy = true := by
  cases c with
  | none => exact absurd h (by simp [itemSessionUpdate])
  | some l =>
    cases l with
    | nil => exact absurd h (by simp [itemSessionUpdate])
    | cons item rest =>
      cases item with
      | nondict => exact absurd h (by simp [itemSessionUpdate])
      | dict fields =>
        simp only [itemSessionUpdate] at h
        cases hj : jsonLoads ((lookupStr fields "text").getD "") with
        | none => rw [hj] at h; exact absurd h (by simp)
        | some j =>
          rw [hj] at h
          cases j with
          | obj result_fields =>
            dsimp only at h
            by_cases ht :
              ((lookupField result_fields "code_int_session_id").getD (Json.str "")).truthy = true
            · rw [if_pos ht] at h
              cases h
              exact ht
            · rw [if_neg ht] at h
              exact absurd h (by simp)
          | null => exact absurd h (by simp)
          | bool b => exact absurd h (by simp)
          | num n => exact absurd h (by simp)
          | str s => exact absurd h (by simp)
          | arr a => exact absurd h (by simp)

theorem userBlockUpdate_truthy (jsonLoads : String → Option Json) (b : UserBlock) (v : Json)
    (h : userBlockUpdate jsonLoads b = some v) : v.truthy = true := by
  cases b with
  | toolResult c => exact itemSessionUpdate_truthy jsonLoads c v h
  | other => exact absurd h (by simp [userBlockUpdate])

theorem msgSessionUpdates_truthy (jsonLoads : String → Option Json) (m : Message) (v : Json)
    (h : v ∈ msgSessionUpdates jsonLoads m) : v.truthy = true := by
  cases m with
  | system subtype d => exact absurd h (by simp [msgSessionUpdates])
  | assistant blocks => exact absurd h (by simp [msgSessionUpdates])
  | result sid => exact absurd h (by simp [msgSessionUpdates])
  | user blocks =>
    simp only [msgSessionUpdates, List.mem_filterMap] at h
    obtain ⟨b, _, hb⟩ := h
    exact userBlockUpdate_truthy jsonLoads b v hb

/-- State-free description of one entrypoint invocation: the yielded
events are exactly the per-message translations of the native messages,
and the retry decision depends only on the first attempt's error and the
truthiness of `claude_session_id`. -/
def driverSpec (hashName : String → Int) (env : String → Option String → RunOutcome)
    (prompt : String) (claude_session_id : Option String) : DriverResult :=
  let o1 := env prompt claude_session_id
  let evs1 := o1.messages.flatMap (msgEvents hashName)
  match o1.error with
  | none => { events := evs1, error := none, attempts := [claude_session_id] }
  | some RunError.processError =>
    if optTruthy claude_session_id then
      let o2 := env prompt none
      { events := evs1 ++ o2.messages.flatMap (msgEvents hashName), error := o2.error,
        attempts := [claude_session_id, none] }
    else
      { events := evs1, error := some RunError.processError,
        attempts := [claude_session_id] }
  | some (RunError.otherError k) =>
    { events := evs1, error := some (RunError.otherError k),
      attempts := [claude_session_id] }

theorem main_driver_eq_spec (hashName : String → Int) (jsonLoads : String → Option Json)
    (env : String → Option String → RunOutcome) (gatewayConfigured : Bool) (p : Payload) :
    main_driver hashName jsonLoads env gatewayConfigured p =
      driverSpec hashName env p.prompt p.claude_session_id := by
  simp only [main_driver, driverSpec, build_options]
  cases h : (env p.prompt p.claude_session_id).error with
  | none => simp only [processMessages_events]
  | some e =>
    cases e with
    | processError =>
      by_cases ht : optTruthy p.claude_session_id = true
      · simp only [ht, if_true, processMessages_events]
      · simp only [ht, if_false, processMessages_events]
    | otherError k => simp only [processMessages_events]

/-- The `ToolResultBlock` payload text of Scenario C (a JSON object with a
`code_int_session_id` entry), with braces escaped. -/
def sess42_payload_text : String := "\x7b\"code_int_session_id\": \"sess-42\"\x7d"

/-- Concrete stand-in for `json.loads` used in closed instances: parses
the Scenario C payload, the empty object, and nothing else. -/
def jlSample : String → Option Json := fun s =>
  if s = sess42_payload_text then
    some (Json.obj [("code_int_session_id", Json.str "sess-42")])
  else if s = "\x7b\x7d" then some (Json.obj [])
  else none

/-- Claim C2: when the first attempt fails with `ProcessError` and the
prior resume token was non-empty, exactly one retry runs, with the resume
token cleared (the attempt trace is `[token, none]`), and the retry's own
failure — in particular a second `ProcessError` — propagates to the
caller with no further retry. -/
theorem C2_retry_once_on_resume_failure (hashName : String → Int)
    (jsonLoads : String → Option Json) (env : String → Option String → RunOutcome)
    (gatewayConfigured : Bool) (p : Payload)
    (htok : optTruthy p.claude_session_id = true)
    (hfail : (env p.prompt p.claude_session_id).error = some RunError.processError) :
    (main_driver hashName jsonLoads env gatewayConfigured p).attempts
        = [p.claude_session_id, none] ∧
    (main_driver hashName jsonLoads env gatewayConfigured p).error
        = (env p.prompt none).error := by
  rw [main_driver_eq_spec]
  simp only [driverSpec, hfail, htok, if_true]
  exact ⟨trivial, trivial⟩

/-- Witness for C2: a run service that always raises `ProcessError`, a
payload with resume token `"t1"`. -/
theorem C2_retry_once_witness :
    (main_driver (fun _ => 0) jlSample
        (fun _ _ => { messages := [], error := some RunError.processError }) false
        { prompt := "p", code_int_session_id := Json.str "", claude_session_id := some "t1" }).attempts
      = [some "t1", none] ∧
    (main_driver (fun _ => 0) jlSample
        (fun _ _ => { messages := [], error := some RunError.processError }) false
        { prompt := "p", code_int_session_id := Json.str "", claude_session_id := some "t1" }).error
      = some RunError.processError := by
  have h := C2_retry_once_on_resume_failure (fun _ => 0) jlSample
    (fun _ _ => { messages := [], error := some RunError.processError }) false
    { prompt := "p", code_int_session_id := Json.str "", claude_session_id := some "t1" }
    (by rfl) (by rfl)
  exact ⟨h.1, h.2.trans rfl⟩

/-- Claim C3: any failure that is not a `ProcessError` propagates
immediately: one attempt only, the error surfaces unchanged, and the
yielded events are exactly the first attempt's translations — no retry,
even when the resume token is non-empty. -/
theorem C3_other_failure_no_retry (hashName : String → Int)
    (jsonLoads : String → Option Json) (env : String → Option String → RunOutcome)
    (gatewayConfigured : Bool) (p : Payload) (k : String)
    (hfail : (env p.prompt p.claude_session_id).error = some (RunError.otherError k)) :
    (main_driver hashName jsonLoads env gatewayConfigured p).attempts
        = [p.claude_session_id] ∧
    (main_driver hashName jsonLoads env gatewayConfigured p).error
        = some (RunError.otherError k) ∧
    (main_driver hashName jsonLoads env gatewayConfigured p).events
        = (env p.prompt p.claude_session_id).messages.flatMap (msgEvents hashName) := by
  rw [main_driver_eq_spec]
  simp only [driverSpec, hfail]
  exact ⟨trivial, trivial, trivial⟩

/-- Witness for C3: a configuration-class failure with a non-empty resume
token still yields a single attempt. -/
theorem C3_other_failure_witness :
    (main_driver (fun _ => 0) jlSample
        (fun _ _ => { messages := [], error := some (RunError.otherError "configuration") }) false
        { prompt := "p", code_int_session_id := Json.str "", claude_session_id := some "t1" }).attempts
      = [some "t1"] ∧
    (main_driver (fun _ => 0) jlSample
        (fun _ _ => { messages := [], error := some (RunError.otherError "configuration") }) false
        { prompt := "p", code_int_session_id := Json.str "", claude_session_id := some "t1" }).error
      = some (RunError.otherError "configuration") := by
  have h := C3_other_failure_no_retry (fun _ => 0) jlSample
    (fun _ _ => { messages := [], error := some (RunError.otherError "configuration") }) false
    { prompt := "p", code_int_session_id := Json.str "", claude_session_id := some "t1" }
    "configuration" (by rfl)
  exact ⟨h.1, h.2.1⟩

/-- Claim C4: a `ProcessError` with an empty (or absent) resume token
propagates immediately — a single attempt, no retry. -/
theorem C4_no_retry_without_token (hashName : String → Int)
    (jsonLoads : String → Option Json) (env : String → Option String → RunOutcome)
    (gatewayConfigured : Bool) (p : Payload)
    (htok : optTruthy p.claude_session_id = false)
    (hfail : (env p.prompt p.claude_session_id).error = some RunError.processError) :
    (main_driver hashName jsonLoads env gatewayConfigured p).attempts
        = [p.claude_session_id] ∧
    (main_driver hashName jsonLoads env gatewayConfigured p).error
        = some RunError.processError := by
  rw [main_driver_eq_spec]
  simp only [driverSpec, hfail, htok, Bool.false_eq_true, if_false]
  exact ⟨trivial, trivial⟩

/-- Witness for C4: an absent resume token and a `ProcessError` on the
only attempt. -/
theorem C4_no_retry_witness :
    (main_driver (fun _ => 0) jlSample
        (fun _ _ => { messages := [], error := some RunError.processError }) false
        { prompt := "p", code_int_session_id := Json.str "", claude_session_id := none }).attempts
      = [none] ∧
    (main_driver (fun _ => 0) jlSample
        (fun _ _ => { messages := [], error := some RunError.processError }) false
        { prompt := "p", code_int_session_id := Json.str "", claude_session_id := none }).error
      = some RunError.processError :=
  C4_no_retry_without_token (fun _ => 0) jlSample
    (fun _ _ => { messages := [], error := some RunError.processError }) false
    { prompt := "p", code_int_session_id := Json.str "", claude_session_id := none }
    (by rfl) (by rfl)

/-- Claim C6 (noninterference): two invocations whose payloads differ only
in the incoming `code_int_session_id` produce identical results — the same
events, the same propagated error, the same attempt trace. The incoming
sandbox session id is written into local state but never read back into
any output. -/
theorem C6_session_id_noninterference (hashName : String → Int)
    (jsonLoads : String → Option Json) (env : String → Option String → RunOutcome)
    (gatewayConfigured : Bool) (p q : Payload)
    (hprompt : p.prompt = q.prompt)
    (hclaude : p.claude_session_id = q.claude_session_id) :
    main_driver hashName jsonLoads env gatewayConfigured p
      = main_driver hashName jsonLoads env gatewayConfigured q := by
  rw [main_driver_eq_spec hashName jsonLoads env gatewayConfigured p,
    main_driver_eq_spec hashName jsonLoads env gatewayConfigured q, hprompt, hclaude]

/-- Witness for C6: payloads with sandbox session ids `"A"` and `"B"` give
equal driver results on a concrete run. -/
theorem C6_noninterference_witness :
    main_driver (fun _ => 0) jlSample
        (fun _ _ => { messages := [Message.result "r1"], error := none }) false
        { prompt := "p", code_int_session_id := Json.str "A", claude_session_id := none }
      = main_driver (fun _ => 0) jlSample
          (fun _ _ => { messages := [Message.result "r1"], error := none }) false
          { prompt := "p", code_int_session_id := Json.str "B", claude_session_id := none } :=
  C6_session_id_noninterference (fun _ => 0) jlSample
    (fun _ _ => { messages := [Message.result "r1"], error := none }) false
    { prompt := "p", code_int_session_id := Json.str "A", claude_session_id := none }
    { prompt := "p", code_int_session_id := Json.str "B", claude_session_id := none }
    rfl rfl

/-- Claim C10 (ordering): the translated events appear in an order
consistent with the native messages — the stream's events are the
concatenation, in arrival order, of each message's events (sub-events of a
composite message keep their internal order); and the Scenario A input
`[Init, TextBlock "hi", completion "r1"]` yields exactly
`[TextChunk "hi", RunCompleted "r1"]`, the initialization marker emitting
nothing. -/
theorem C10_ordering (hashName : String → Int) (jsonLoads : String → Option Json) :
    (∀ (msgs : List Message) (st : AgentState),
      (processMessages hashName jsonLoads msgs st).1
        = msgs.flatMap (msgEvents hashName)) ∧
    (∀ (st : AgentState),
      (processMessages hashName jsonLoads
          [Message.system "init" (some "s0"), Message.assistant [ContentBlock.text "hi"],
           Message.result "r1"] st).1
        = [Event.data "hi", Event.claudeSessionId "r1"]) :=
  ⟨processMessages_events hashName jsonLoads, fun _ => rfl⟩

/-- Claim C8: a native tool-use block is translated to a
`current_tool_use` event carrying the block's name, its input payload, and
an invocation id `"tool-" ++ id` when the block has an id, otherwise
`"tool-" ++ hash(name)`; in particular id `"abc"` gives `"tool-abc"`. -/
theorem C8_tool_invoked_event (hashName : String → Int)
    (jsonLoads : String → Option Json) (name : String) (input : Json) (i : String)
    (st : AgentState) :
    (stepMessage hashName jsonLoads
        (Message.assistant [ContentBlock.toolUse name input (some i)]) st
      = ([Event.currentToolUse name input ("tool-" ++ i)], st)) ∧
    (stepMessage hashName jsonLoads
        (Message.assistant [ContentBlock.toolUse name input none]) st
      = ([Event.currentToolUse name input ("tool-" ++ toString (hashName name))], st)) ∧
    (stepMessage hashName jsonLoads
        (Message.assistant [ContentBlock.toolUse "execute_code" input (some "abc")]) st
      = ([Event.currentToolUse "execute_code" input "tool-abc"], st)) :=
  ⟨rfl, rfl, rfl⟩

/-- Translating a user message holding one tool-result block yields no
event and applies only the session-id update. -/
theorem stepMessage_toolResult (hashName : String → Int)
    (jsonLoads : String → Option Json) (c : Option (List ToolResultItem))
    (st : AgentState) :
    stepMessage hashName jsonLoads (Message.user [UserBlock.toolResult c]) st
      = ([], toolResultUpdate jsonLoads c st) := rfl

/-- Claim C9: a tool-result payload that does not parse as structured data,
or parses but lacks the session field, produces no event and leaves the
state untouched — processing continues silently (nothing is raised: the
translation is total). -/
theorem C9_unparseable_tool_result_silent (hashName : String → Int)
    (jsonLoads : String → Option Json) (fields : List (String × String))
    (st : AgentState) :
    (jsonLoads ((lookupStr fields "text").getD "") = none →
      stepMessage hashName jsonLoads
          (Message.user [UserBlock.toolResult (some [ToolResultItem.dict fields])]) st
        = ([], st)) ∧
    (∀ result_fields : List (String × Json),
      jsonLoads ((lookupStr fields "text").getD "") = some (Json.obj result_fields) →
      lookupField result_fields "code_int_session_id" = none →
      stepMessage hashName jsonLoads
          (Message.user [UserBlock.toolResult (some [ToolResultItem.dict fields])]) st
        = ([], st)) := by
  constructor
  · intro h
    rw [stepMessage_toolResult, toolResultUpdate_eq]
    have hu : itemSessionUpdate jsonLoads (some [ToolResultItem.dict fields]) = none := by
      simp only [itemSessionUpdate, h]
    rw [hu]
  · intro result_fields h1 h2
    rw [stepMessage_toolResult, toolResultUpdate_eq]
    have hu : itemSessionUpdate jsonLoads (some [ToolResultItem.dict fields]) = none := by
      simp [itemSessionUpdate, h1, h2, Json.truthy]
    rw [hu]

/-- Witness for C9: non-JSON text (first conjunct, `jlSample` rejects it)
and the empty object `\x7b\x7d` (second conjunct, no session field). -/
theorem C9_silent_witness :
    (stepMessage (fun _ => 0) jlSample
        (Message.user [UserBlock.toolResult
          (some [ToolResultItem.dict [("text", "plain text, not json")]])])
        { code_int_session_id := Json.str "", agent_responses := [] }
      = ([], { code_int_session_id := Json.str "", agent_responses := [] })) ∧
    (stepMessage (fun _ => 0) jlSample
        (Message.user [UserBlock.toolResult
          (some [ToolResultItem.dict [("text", "\x7b\x7d")]])])
        { code_int_session_id := Json.str "", agent_responses := [] }
      = ([], { code_int_session_id := Json.str "", agent_responses := [] })) :=
  ⟨(C9_unparseable_tool_result_silent (fun _ => 0) jlSample
      [("text", "plain text, not json")]
      { code_int_session_id := Json.str "", agent_responses := [] }).1 (by rfl),
   (C9_unparseable_tool_result_silent (fun _ => 0) jlSample
      [("text", "\x7b\x7d")]
      { code_int_session_id := Json.str "", agent_responses := [] }).2 [] (by rfl) (by rfl)⟩

/-- Claim C5 (session monotonic-forwarding): over one invocation's message
stream, the tracked sandbox session id ends as the last extracted update
(or the initial value when no update occurred — it changes only in
response to a tool-result payload with a non-empty session field); every
update value is truthy, hence the id is never set to the empty string; and
once truthy it stays truthy. -/
theorem C5_session_monotonic (hashName : String → Int)
    (jsonLoads : String → Option Json) (msgs : List Message) (st : AgentState) :
    ((processMessages hashName jsonLoads msgs st).2.code_int_session_id
        = lastD (msgs.flatMap (msgSessionUpdates jsonLoads)) st.code_int_session_id) ∧
    (∀ v ∈ msgs.flatMap (msgSessionUpdates jsonLoads), v.truthy = true) ∧
    (st.code_int_session_id.truthy = true →
      (processMessages hashName jsonLoads msgs st).2.code_int_session_id.truthy = true) := by
  have hall : ∀ v ∈ msgs.flatMap (msgSessionUpdates jsonLoads), v.truthy = true := by
    intro v hv
    rw [List.mem_flatMap] at hv
    obtain ⟨m, _, hm⟩ := hv
    exact msgSessionUpdates_truthy jsonLoads m v hm
  refine ⟨processMessages_session hashName jsonLoads msgs st, hall, ?_⟩
  intro hst
  rw [processMessages_session]
  exact lastD_truthy _ _ hall hst

/-- Witness for C5: starting from the truthy id `"s0"` and processing the
Scenario C tool result, the tracked id stays truthy. -/
theorem C5_session_monotonic_witness :
    (processMessages (fun _ => 0) jlSample
        [Message.user [UserBlock.toolResult
          (some [ToolResultItem.dict [("text", sess42_payload_text)]])]]
        { code_int_session_id := Json.str "s0", agent_responses := [] }
      ).2.code_int_session_id.truthy = true :=
  (C5_session_monotonic (fun _ => 0) jlSample
    [Message.user [UserBlock.toolResult
      (some [ToolResultItem.dict [("text", sess42_payload_text)]])]]
    { code_int_session_id := Json.str "s0", agent_responses := [] }).2.2 (by rfl)

/-- The Scenario C native message: a tool result whose payload is the JSON
object with `code_int_session_id = "sess-42"`. -/
def sess42_message : Message :=
  Message.user [UserBlock.toolResult
    (some [ToolResultItem.dict [("text", sess42_payload_text)]])]

/-- A run service delivering exactly the Scenario C tool result and ending
normally. -/
def envSess42 : String → Option String → RunOutcome := fun _ _ =>
  { messages := [sess42_message], error := none }

/-- Counterexample to claim C1: on the invocation whose stream delivers the
tool-result payload `\x7b"code_int_session_id": "sess-42"\x7d`, the driver
yields no event at all — in particular no event carrying the new session
id appears in the output sequence (the `Event` type enumerates every
yield in the source, and none mentions the sandbox session id). -/
theorem C1_counterexample :
    (main_driver (fun _ => 0) jlSample envSess42 false
        { prompt := "run some code", code_int_session_id := Json.str "",
          claude_session_id := none }).events
      = [] := by rfl

/-- Claim C1 as amended: a tool-result payload parsing to an object with a
truthy `code_int_session_id` updates the tracked sandbox session id to
that value but emits no event; a payload parsing to the empty object
produces no event and no update. -/
theorem C1_update_without_event (hashName : String → Int)
    (jsonLoads : String → Option Json) (txt : String) (st : AgentState) :
    (∀ (result_fields : List (String × Json)) (v : Json),
      jsonLoads txt = some (Json.obj result_fields) →
      lookupField result_fields "code_int_session_id" = some v →
      v.truthy = true →
      stepMessage hashName jsonLoads
          (Message.user [UserBlock.toolResult (some [ToolResultItem.dict [("text", txt)]])]) st
        = ([], { st with code_int_session_id := v })) ∧
    (jsonLoads txt = some (Json.obj []) →
      stepMessage hashName jsonLoads
          (Message.user [UserBlock.toolResult (some [ToolResultItem.dict [("text", txt)]])]) st
        = ([], st)) := by
  have htext : (lookupStr [("text", txt)] "text").getD "" = txt := rfl
  constructor
  · intro result_fields v h1 h2 h3
    rw [stepMessage_toolResult, toolResultUpdate_eq]
    have hu : itemSessionUpdate jsonLoads (some [ToolResultItem.dict [("text", txt)]])
        = some v := by
      simp only [itemSessionUpdate, htext, h1, h2, Option.getD_some]
      rw [if_pos h3]
    rw [hu]
  · intro h
    rw [stepMessage_toolResult, toolResultUpdate_eq]
    have hu : itemSessionUpdate jsonLoads (some [ToolResultItem.dict [("text", txt)]])
        = none := by
      simp only [itemSessionUpdate, htext, h]
      rfl
    rw [hu]

/-- Witness for the amended C1: the Scenario C payload updates the state
to `"sess-42"` with no event, and the empty object is a no-op. -/
theorem C1_update_without_event_witness :
    (stepMessage (fun _ => 0) jlSample
        (Message.user [UserBlock.toolResult
          (some [ToolResultItem.dict [("text", sess42_payload_text)]])])
        { code_int_session_id := Json.str "", agent_responses := [] }
      = ([], { code_int_session_id := Json.str "sess-42", agent_responses := [] })) ∧
    (stepMessage (fun _ => 0) jlSample
        (Message.user [UserBlock.toolResult
          (some [ToolResultItem.dict [("text", "\x7b\x7d")]])])
        { code_int_session_id := Json.str "", agent_responses := [] }
      = ([], { code_int_session_id := Json.str "", agent_responses := [] })) :=
  ⟨(C1_update_without_event (fun _ => 0) jlSample sess42_payload_text
      { code_int_session_id := Json.str "", agent_responses := [] }).1
      [("code_int_session_id", Json.str "sess-42")] (Json.str "sess-42")
      (by rfl) (by rfl) (by rfl),
   (C1_update_without_event (fun _ => 0) jlSample "\x7b\x7d"
      { code_int_session_id := Json.str "", agent_responses := [] }).2 (by rfl)⟩

/-- Counterexample to claim C7: the catalog's tool lists are not contained
in the registry-exposed capability set — concretely the `code-analyst`
entry lists `Read`, which the registry does not expose even with the
gateway configured. -/
theorem C7_counterexample :
    ((get_subagent_definitions (mcp_server_names true)).all (fun p =>
        p.2.tools.all (fun t => (exposed_capabilities true).contains t))) = false
    ∧ (code_analyst.tools.contains "Read") = true
    ∧ ((exposed_capabilities true).contains "Read") = false := by
  refine ⟨?_, rfl, ?_⟩ <;> decide

/-- Claim C7 as amended: every catalog entry's tools are drawn from the
registry-exposed set (sandbox operations plus the gateway wildcard)
together with the built-in read-only tools `Read`, `Grep`, `Glob`, and no
entry's tools contain the `Task` delegation capability. -/
theorem C7_subagent_capabilities (mcp_servers : List String) :
    ((get_subagent_definitions mcp_servers).all (fun p =>
        p.2.tools.all (fun t =>
          (exposed_capabilities true ++ ["Read", "Grep", "Glob"]).contains t)
        && !(p.2.tools.contains "Task"))) = true := by
  simp only [get_subagent_definitions]
  decide
